import Mathlib

/-!
Verification of the ftpserver repository: a shallow embedding in Lean 4 of the
path guard, the local filesystem layer, the user registry, the FTP command
handlers and the SFTP rename handler, together with theorems settling the
specification claims about them.

Paths are modelled as Lean strings; the Go standard-library path functions
(`filepath.Clean`, `filepath.Join`, `filepath.Rel` with base `"/"`,
`fs.ValidPath`) are reimplemented here segment-by-segment on `List Char`,
following their documented Unix semantics, so that every definition is
executable by the kernel.
-/

/-- Character-level split on '/', mirroring `strings.Split(s, "/")`:
`"a/b" ↦ ["a","b"]`, `"/" ↦ ["",""]`, `"" ↦ [""]`. -/
def splitSegsAux : List Char → List Char → List (List Char)
  | [], acc => [acc.reverse]
  | c :: rest, acc =>
    if c = '/' then acc.reverse :: splitSegsAux rest []
    else splitSegsAux rest (c :: acc)

/-- Split a character list into its '/'-separated segments. -/
def splitSegs (cs : List Char) : List (List Char) := splitSegsAux cs []

/-- The segment `"."`. -/
def dotSeg : List Char := ['.']

/-- The segment `".."`. -/
def dotdotSeg : List Char := ['.', '.']

/-- One step of Go `filepath.Clean`'s segment processing: empty and `"."`
segments are dropped; `".."` pops a previous real segment, is dropped at the
root of a rooted path, and accumulates at the front of an unrooted path;
any other segment is pushed. `stack` is kept reversed. -/
def cleanStep (rooted : Bool) (stack : List (List Char)) (seg : List Char) :
    List (List Char) :=
  if seg = [] ∨ seg = dotSeg then stack
  else if seg = dotdotSeg then
    match stack with
    | [] => if rooted then [] else [dotdotSeg]
    | top :: rest => if top = dotdotSeg then dotdotSeg :: top :: rest else rest
  else seg :: stack

/-- Join segments back with '/' separators. -/
def joinSegs : List (List Char) → List Char
  | [] => []
  | [s] => s
  | s :: rest => s ++ '/' :: joinSegs rest

/-- Go `filepath.Clean` (Unix separators) on a character list. -/
def goCleanL (p : List Char) : List Char :=
  if p = [] then dotSeg
  else
    let rooted := p.head? = some '/'
    let stack := ((splitSegs p).foldl (cleanStep rooted) []).reverse
    if rooted then '/' :: joinSegs stack
    else if stack = [] then dotSeg else joinSegs stack

/-- Go `filepath.Clean` on strings. -/
def goClean (p : String) : String := ⟨goCleanL p.data⟩

/-- Go `filepath.Join(a, b)` (Unix): drop empty elements, join the rest with
'/' and `Clean` the result; the join of two empty strings is `""`. -/
def goJoin (a b : String) : String :=
  if a.data = [] ∧ b.data = [] then ""
  else if a.data = [] then goClean b
  else if b.data = [] then goClean a
  else ⟨goCleanL (a.data ++ '/' :: b.data)⟩

/-- Go `filepath.Rel(base, targ)` specialised to `base = "/"`, the only base
the source ever uses (`NewLocalFS` fixes `virtualRoot = "/"`): a rooted target
cleans to `"/"` followed by a relative remainder, and the remainder is the
answer (`"."` for the root itself); an unrooted target is an error. -/
def goRelFromRoot (targ : String) : Except String String :=
  match goCleanL targ.data with
  | ['/'] => .ok "."
  | '/' :: rest => .ok ⟨rest⟩
  | _ => .error ("Rel: can't make " ++ targ ++ " relative to /")

/-- `strings.HasPrefix` on character lists. -/
def isPfxOfL : List Char → List Char → Bool
  | [], _ => true
  | _ :: _, [] => false
  | a :: as, b :: bs => a = b && isPfxOfL as bs

/-- Whether the first character is the path separator
(`os.IsPathSeparator(relPath[0])` in the source). -/
def headIsSep : List Char → Bool
  | '/' :: _ => true
  | _ => false

/-- `LocalFS.securePath` from `filesystem/fs.go`, with
`FS.virtualRoot = "/"` as fixed by `NewLocalFS`:
clean the input, take it relative to the root, accept `"."` (returning the
cleaned input verbatim) and any remainder not starting with `".."` or a
separator (returning the rooted join), and reject the rest. -/
def securePath (pathName : String) : Except String String :=
  let cleaned : String := goClean pathName
  match goRelFromRoot (goJoin "/" cleaned) with
  | .error e => .error ("error cleaning path: " ++ e)
  | .ok relPath =>
    if relPath = "." ∨ relPath = "/" then .ok cleaned
    else if !(isPfxOfL dotdotSeg relPath.data) && !(headIsSep relPath.data) then
      .ok (goJoin "/" cleaned)
    else .error "access denied: path is outside the virtualRoot directory"

/-- `LocalFS.cleanPath` from `filesystem/fs.go`: `securePath`, then map `""`
and `"/"` to `"."` and strip one leading '/'. -/
def cleanPath (pathName : String) : Except String String :=
  match securePath pathName with
  | .error e => .error e
  | .ok p =>
    if p = "" ∨ p = "/" then .ok "."
    else match p.data with
      | '/' :: rest => .ok ⟨rest⟩
      | _ => .ok p

/-- A host path lies inside `root` iff it is `root` itself or a descendant. -/
def isWithinRoot (root target : String) : Bool :=
  target = root || isPfxOfL (root.data ++ ['/']) target.data

deriving instance DecidableEq for Except

/-! ## Local filesystem model

The host filesystem is modelled as a flat association list from host path
strings (already joined under the local root) to file contents, a byte list.
I/O failures other than those the source itself produces (missing file,
invalid `io/fs` name, failed path guard) are outside the model. -/

/-- Host filesystem: association list host-path ↦ byte content. -/
abbrev FileMap := List (String × List Nat)

/-- Lookup of a host path. -/
def fmGet : FileMap → String → Option (List Nat)
  | [], _ => none
  | (k2, v) :: rest, k => if k2 = k then some v else fmGet rest k

/-- Create or overwrite a host path. -/
def fmSet : FileMap → String → List Nat → FileMap
  | [], k, v => [(k, v)]
  | (k2, v2) :: rest, k, v =>
    if k2 = k then (k2, v) :: rest else (k2, v2) :: fmSet rest k v

/-- Unlink a host path. -/
def fmDel : FileMap → String → FileMap
  | [], _ => []
  | (k2, v2) :: rest, k => if k2 = k then fmDel rest k else (k2, v2) :: fmDel rest k

/-- `bufio.ScanLines`' trailing-carriage-return strip (`dropCR`). -/
def dropCR (l : List Nat) : List Nat :=
  match l.reverse with
  | 13 :: rest => rest.reverse
  | _ => l

/-- Split a byte stream into `bufio.Scanner` lines: tokens end at `'\n'`
(byte 10) and lose a trailing `'\r'` (byte 13); leftover bytes at EOF form a
final token, and an empty leftover yields no token. `acc` is reversed. -/
def splitLinesAux : List Nat → List Nat → List (List Nat)
  | [], acc => if acc = [] then [] else [dropCR acc.reverse]
  | b :: rest, acc =>
    if b = 10 then dropCR acc.reverse :: splitLinesAux rest []
    else splitLinesAux rest (b :: acc)

/-- All `bufio.Scanner` lines of a byte stream. -/
def splitLines (bs : List Nat) : List (List Nat) := splitLinesAux bs []

/-- `fmt.Fprintln(file, line)` for every scanned line: each line followed by
the server's newline (`'\n'`, the source runs on Unix). -/
def fprintlnAll : List (List Nat) → List Nat
  | [] => []
  | l :: rest => l ++ 10 :: fprintlnAll rest

/-- Result of `LocalFS.WriteFile`: the returned error (if any) together with
the filesystem as left behind. -/
structure WriteOut where
  res : Except String Unit
  fs : FileMap
deriving DecidableEq

/-- `LocalFS.WriteFile` from `filesystem/fs.go`: guard the path, then
`os.OpenFile` with `O_CREATE` and (`O_APPEND` or `O_TRUNC`) — the file comes
into existence, truncated unless appending, *before* the transfer-type
dispatch — then copy byte-for-byte for type `"I"`, rewrite scanner lines with
the server newline for type `"A"`, and fail for any other type. -/
def writeFile (localDir : String) (fs : FileMap) (fileName : String)
    (input : List Nat) (transferType : String) (appendOnly : Bool) : WriteOut :=
  match cleanPath fileName with
  | .error e => { res := .error e, fs := fs }
  | .ok cp =>
    let target := goJoin localDir cp
    let base : List Nat := if appendOnly then (fmGet fs target).getD [] else []
    let fsOpened := fmSet fs target base
    if transferType = "I" then
      { res := .ok (), fs := fmSet fsOpened target (base ++ input) }
    else if transferType = "A" then
      { res := .ok (), fs := fmSet fsOpened target (base ++ fprintlnAll (splitLines input)) }
    else
      { res := .error ("unsupported transfer type: " ++ transferType ++
          ", only type 'A' (text) or type 'I' (binary)"),
        fs := fsOpened }

/-- `fs.ValidPath` from the Go standard library: `"."` is valid, and otherwise
every '/'-separated segment must be non-empty and differ from `"."`/`".."`. -/
def fsValidPath (name : String) : Bool :=
  name = "." ||
  (!(name.data = []) &&
    (splitSegs name.data).all fun s => !(s = []) && !(s = dotSeg) && !(s = dotdotSeg))

/-- Strip one leading '/' (`if len(name) > 0 && name[0] == '/'` in the source). -/
def stripLeadSlash (s : String) : String :=
  match s.data with
  | '/' :: rest => ⟨rest⟩
  | _ => s

/-- `LocalFS.ReadFile` from `filesystem/fs.go`: strip one leading '/', open
through `os.DirFS(localDir)` — which rejects names that are not valid `io/fs`
paths and otherwise opens the name joined under `localDir` — and deliver the
whole content to the sink. -/
def readFile (localDir : String) (fs : FileMap) (name : String) :
    Except String (List Nat) :=
  let name2 := stripLeadSlash name
  if fsValidPath name2 = false then .error "error opening file: invalid path"
  else match fmGet fs (goJoin localDir name2) with
    | none => .error "error opening file: file does not exist"
    | some bs => .ok bs

/-- `LocalFS.Stat` from `filesystem/fs.go`, restricted to what the claims
need: guard the path, then `fs.Stat` through `os.DirFS(localDir)` (which also
validates the name); the content stands in for the `FileInfo`. -/
def statP (localDir : String) (fs : FileMap) (fileName : String) :
    Except String (List Nat) :=
  match cleanPath fileName with
  | .error e => .error e
  | .ok cp =>
    if fsValidPath cp = false then .error "error getting file info: invalid path"
    else match fmGet fs (goJoin localDir cp) with
      | none => .error "error getting file info: file does not exist"
      | some bs => .ok bs

/-- Result of `LocalFS.Rename` / `FileSys.PosixRename`. -/
structure RenameOut where
  res : Except String Unit
  fs : FileMap
deriving DecidableEq

/-- `LocalFS.Rename` from `filesystem/fs.go`: guard both paths, join them
under the local root and `os.Rename` — an error (leaving the filesystem
unchanged) when the source is missing, otherwise the content moves, replacing
any file at the destination. -/
def renameP (localDir : String) (fs : FileMap) (fileName newName : String) :
    RenameOut :=
  match cleanPath fileName with
  | .error e => { res := .error e, fs := fs }
  | .ok a =>
    match cleanPath newName with
    | .error e => { res := .error e, fs := fs }
    | .ok b =>
      let src := goJoin localDir a
      let dst := goJoin localDir b
      match fmGet fs src with
      | none => { res := .error "error renaming file: no such file or directory", fs := fs }
      | some v => { res := .ok (), fs := fmSet (fmDel fs src) dst v }

/-- `FileSys.PosixRename` from `sftp/handler.go` (the target of the `Rename`
branch of `FileSys.Filecmd`): if `Stat` of the target succeeds the request is
rejected with `fs.ErrExist` and nothing changes, otherwise delegate to the
filesystem rename. -/
def posixRename (localDir : String) (fs : FileMap) (filepathArg target : String) :
    RenameOut :=
  match statP localDir fs target with
  | .ok _ => { res := .error "file already exists", fs := fs }
  | .error _ => renameP localDir fs filepathArg target

/-! ## User registry model (`ftp/ftpusers/users.go`)

Addresses and CIDR networks follow `net/netip`: an address is a family tag
plus its numeric value, a network is an address plus a mask length, and
containment compares the top `len` bits within the same family.  The
standard-library string parser is a modelling boundary: a client-supplied
address string is carried together with its parse result. -/

/-- A `netip.Addr`: IPv4 (32-bit) or IPv6 (128-bit) with its numeric value. -/
structure IpAddr where
  v4 : Bool
  bits : Nat
deriving DecidableEq

/-- A `netip.Prefix`-style CIDR network: base address and mask length. -/
structure IpNet where
  addr : IpAddr
  len : Nat
deriving DecidableEq

/-- The bit width of an address family. -/
def ipBitsWidth (a : IpAddr) : Nat := if a.v4 then 32 else 128

/-- `netip.Prefix.Contains`: `false` across families, otherwise the top
`len` bits of both addresses agree. -/
def netContains (n : IpNet) (a : IpAddr) : Bool :=
  if a.v4 ≠ n.addr.v4 then false
  else a.bits / 2 ^ (ipBitsWidth a - n.len) = n.addr.bits / 2 ^ (ipBitsWidth a - n.len)

/-- The full-length network `addr.Prefix(32)` / `addr.Prefix(128)` that
`User.AddIP` stores for a bare address. -/
def mkBareNet (a : IpAddr) : IpNet := ⟨a, ipBitsWidth a⟩

/-- A client-supplied address string together with its `netip.ParseAddr`
outcome (`none` when unparseable). The parser itself is standard library and
is modelled by this bundled result. -/
structure IpStr where
  raw : String
  parsed : Option IpAddr

/-- The map `User.IPs`: association list from the textual key under which a
network was added to the network. -/
abbrev IpsMap := List (String × IpNet)

/-- Set a key in an `IpsMap`. -/
def ipsSet : IpsMap → String → IpNet → IpsMap
  | [], k, v => [(k, v)]
  | (k2, v2) :: rest, k, v =>
    if k2 = k then (k2, v) :: rest else (k2, v2) :: ipsSet rest k v

/-- A `ftpusers.User`: username, password and allowed networks. -/
structure UserRec where
  username : String
  password : String
  ips : IpsMap
deriving DecidableEq

/-- `User.FindIP`: parse the address (`false` when that fails) and test
containment in any stored network. -/
def findIP (u : UserRec) (ip : IpStr) : Bool :=
  match ip.parsed with
  | none => false
  | some a => u.ips.any fun kv => netContains kv.2 a

/-- Argument shape for `User.AddIP`: a bare address, a CIDR (address plus
mask length), or an unparseable string. -/
inductive IpArg
| bare (a : IpAddr)
| cidr (a : IpAddr) (len : Nat)
| bad

/-- `User.AddIP` from `ftp/ftpusers/users.go`: a string without '/' is parsed
as a bare address and stored with a /32 (IPv4) or /128 (IPv6) mask, a string
with '/' is parsed as a CIDR, and parse failures are errors. -/
def addIP (u : UserRec) (key : String) (arg : IpArg) : Except String UserRec :=
  match arg with
  | .bad => .error "error parsing IP"
  | .bare a => .ok { u with ips := ipsSet u.ips key (mkBareNet a) }
  | .cidr a len => .ok { u with ips := ipsSet u.ips key ⟨a, len⟩ }

/-- The registry `LocalUsers.users`: association list username ↦ user. -/
abbrev UsersMap := List (String × UserRec)

/-- `LocalUsers.Get`: lookup by username, `"user not found"` when absent. -/
def usersGet : UsersMap → String → Except String UserRec
  | [], _ => .error "user not found"
  | (k, u) :: rest, name => if k = name then .ok u else usersGet rest name

/-- `LocalUsers.Find` from `ftp/ftpusers/users.go`: `Get`, then password
equality, then `FindIP` on the peer address, with the source's three distinct
error messages. -/
def usersFind (m : UsersMap) (username password : String) (ip : IpStr) :
    Except String UserRec :=
  match usersGet m username with
  | .error e => .error e
  | .ok userInfo =>
    if userInfo.password ≠ password then .error "password is incorrect"
    else if findIP userInfo ip = false then
      .error ("ip origin " ++ ip.raw ++ " is not allowed")
    else .ok userInfo

/-! ## FTP session and command handlers (`ftp/handler.go`, `ftp/server.go`)

The control-loop state is split as in the source: `ServerSt` is the
process-wide `ftp.Server` (note that the transfer `Type` lives here and is
shared by all sessions) and `SessionSt` is the per-connection `ftp.Session`.
Data connections are abstracted to identifiers: `dataListener` holds the
passive listener's port, `dataCaller` the active-mode peer connection. -/

/-- The process-wide mutable server state the handlers touch. -/
structure ServerSt where
  ttype : String
  pasvMinPort : Nat
  pasvMaxPort : Nat
  localDir : String
  files : FileMap
deriving DecidableEq

/-- The per-connection `ftp.Session` fields the claims are about. -/
structure SessionSt where
  workingDir : String
  root : String
  isAuthenticated : Bool
  renamingFile : String
  dataListener : Option Nat
  dataCaller : Option Nat
deriving DecidableEq

/-- `ftp.Abs`: empty argument is `"."`; an argument carrying the root as a
leading part passes through; otherwise join under the working directory. -/
def absPath (root workingDir arg : String) : String :=
  if arg.data = [] then "."
  else if isPfxOfL root.data arg.data then arg
  else goJoin workingDir arg

/-- `Session.TypeCommand`: `TYPE I`/`TYPE A` assign the *server's* `Type`
field (`s.ftpServer.Type`) and reply `200`; anything else replies `500`.
The session itself is untouched. -/
def typeCommand (serv : ServerSt) (sess : SessionSt) (arg : String) :
    ServerSt × SessionSt × String :=
  if arg = "I" then ({ serv with ttype := "I" }, sess, "200 Type set to I\r\n")
  else if arg = "A" then ({ serv with ttype := "A" }, sess, "200 Type set to A\r\n")
  else (serv, sess, "500 Unknown type\r\n")

/-- `Session.NoopCommand`: reply `200`, no state change. -/
def noopCommand (serv : ServerSt) (sess : SessionSt) :
    ServerSt × SessionSt × String :=
  (serv, sess, "200 NOOP ok.\r\n")

/-- `Session.PrintWorkingDirectoryCommand`: reply `257`, no state change. -/
def pwdCommand (serv : ServerSt) (sess : SessionSt) :
    ServerSt × SessionSt × String :=
  (serv, sess, "257 \x22" ++ sess.workingDir ++ "\x22 is current directory\r\n")

/-- `Session.CloseDataConnection`: close and drop the passive listener;
the active-mode `dataCaller` is *not* touched. -/
def closeDataConnection (sess : SessionSt) : SessionSt :=
  { sess with dataListener := none }

/-- `Session.SaveCommand` (`STOR`/`APPE`): reply `150`; take the data
connection (passive listener first, then active caller, else `425`); write
the incoming bytes through the filesystem under the *server's* transfer type;
reply `226` or `550`.  The deferred `CloseDataConnection` drops the listener
on every exit path; `dataCaller` survives. -/
def saveCommand (serv : ServerSt) (sess : SessionSt) (cmd arg : String)
    (incoming : List Nat) : ServerSt × SessionSt × List String :=
  match sess.dataListener, sess.dataCaller with
  | none, none =>
    (serv, closeDataConnection sess,
      ["150 Opening data connection.\r\n",
       "425 Can't open data connection: no data connection\r\n"])
  | _, _ =>
    let filename := absPath sess.root sess.workingDir arg
    let appendOnly := cmd = "APPE"
    let w := writeFile serv.localDir serv.files filename incoming serv.ttype appendOnly
    match w.res with
    | .error e =>
      ({ serv with files := w.fs }, closeDataConnection sess,
        ["150 Opening data connection.\r\n",
         "550 Error writing to the file: " ++ e ++ "\r\n"])
    | .ok _ =>
      ({ serv with files := w.fs }, closeDataConnection sess,
        ["150 Opening data connection.\r\n", "226 Transfer complete\r\n"])

/-- `Session.RetrieveCommand` (`RETR`): reply `150`; take the data connection
(else `425`); stream the file onto it; reply `226` or `550`.  As in
`SaveCommand`, only the listener is dropped afterwards. -/
def retrieveCommand (serv : ServerSt) (sess : SessionSt) (arg : String) :
    ServerSt × SessionSt × List String :=
  match sess.dataListener, sess.dataCaller with
  | none, none =>
    (serv, closeDataConnection sess,
      ["150 Opening data connection.\n",
       "425 Can't open data connection: no data connection\r\n"])
  | _, _ =>
    let filename := absPath sess.root sess.workingDir arg
    match readFile serv.localDir serv.files filename with
    | .error e =>
      (serv, closeDataConnection sess,
        ["150 Opening data connection.\n",
         "550 Error reading the file: " ++ e ++ "\r\n"])
    | .ok _ =>
      (serv, closeDataConnection sess,
        ["150 Opening data connection.\n", "226 Transfer complete\r\n"])

/-- `Session.RenameFromCommand` (`RNFR`): empty argument replies `503`;
otherwise stat the resolved source and, on success, record it in
`renamingFile` and reply `350`; on failure reply `550` leaving the session
unchanged. -/
def renameFromCommand (serv : ServerSt) (sess : SessionSt) (arg : String) :
    ServerSt × SessionSt × String :=
  if arg = "" then (serv, sess, "503 No file specified\r\n")
  else
    let renamingFile := absPath sess.root sess.workingDir arg
    match statP serv.localDir serv.files renamingFile with
    | .error e => (serv, sess, "550 Error getting file info: " ++ e ++ "\r\n")
    | .ok _ =>
      (serv, { sess with renamingFile := renamingFile },
        "350 File exists, ready for destination name\r\n")

/-- `Session.RenameToCommand` (`RNTO`): empty argument replies `503`;
otherwise call the filesystem rename from whatever `renamingFile` currently
holds — there is no check that an `RNFR` preceded, and `renamingFile` is not
cleared afterwards — replying `250` or `550`. -/
def renameToCommand (serv : ServerSt) (sess : SessionSt) (arg : String) :
    ServerSt × SessionSt × String :=
  if arg = "" then (serv, sess, "503 No file specified\r\n")
  else
    let newFileName := absPath sess.root sess.workingDir arg
    let r := renameP serv.localDir serv.files sess.renamingFile newFileName
    match r.res with
    | .error e =>
      ({ serv with files := r.fs }, sess, "550 Error renaming file: " ++ e ++ "\r\n")
    | .ok _ =>
      ({ serv with files := r.fs }, sess, "250 File renamed successfully.\r\n")

/-- `Session.RemoveCommand` (`DELE`): unlink the resolved path through the
filesystem; reply `250` or `550`. -/
def removeCommand (serv : ServerSt) (sess : SessionSt) (arg : String) :
    ServerSt × SessionSt × String :=
  let fileName := absPath sess.root sess.workingDir arg
  match cleanPath fileName with
  | .error e => (serv, sess, "550 Error deleting file: " ++ e ++ "\n")
  | .ok cp =>
    let target := goJoin serv.localDir cp
    match fmGet serv.files target with
    | none => (serv, sess, "550 Error deleting file: no such file or directory\n")
    | some _ =>
      ({ serv with files := fmDel serv.files target }, sess, "250 File deleted.\r\n")

/-- `findAvailablePortInRange` from `ftp/handler.go`: try candidate ports
ascending from `start` to `endP` inclusive and return the first the host can
bind; `free` is the host's willingness to bind a port.  The recursion is on
the remaining number of candidates. -/
def findPortAux (free : Nat → Bool) : Nat → Nat → Option Nat
  | _, 0 => none
  | port, fuel + 1 => if free port then some port else findPortAux free (port + 1) fuel

/-- `findAvailablePortInRange`: first bindable port in `[start, endP]`, or
the `no available ports` error. -/
def findAvailablePortInRange (startP endP : Nat) (free : Nat → Bool) :
    Except String Nat :=
  match findPortAux free startP (endP + 1 - startP) with
  | some p => .ok p
  | none =>
    .error ("no available ports found in range " ++ toString startP ++ "-" ++
      toString endP)

/-- Outcome of `PASV`/`EPSV` on the control session. -/
structure PasvOut where
  sess : SessionSt
  replies : List String
  handlerErr : Bool
deriving DecidableEq

/-- `Session.PasvEpsvCommand` wrapped by `Session.PassiveModeCommand`
(`PASV`): scan the configured range; on failure reply
`500: Server error listening for data connection: ...` — the wrapper then
returns a nil error, so the control loop continues — and on success store the
listener and reply `227`.  `handlerErr` is whether the dispatched handler
returned a non-nil error (it never does), i.e. whether the control loop
stops. -/
def passiveModeCommand (serv : ServerSt) (sess : SessionSt) (free : Nat → Bool) :
    PasvOut :=
  match findAvailablePortInRange serv.pasvMinPort serv.pasvMaxPort free with
  | .error e =>
    { sess := sess,
      replies := ["500: Server error listening for data connection: " ++ e ++ "\r\n"],
      handlerErr := false }
  | .ok port =>
    { sess := { sess with dataListener := some port },
      replies := ["227 Entering Passive Mode (" ++ toString (port / 256) ++ "," ++
        toString (port % 256) ++ ")\r\n"],
      handlerErr := false }

/-! ## Control-loop dispatch (`Server.ftpHandler`) -/

/-- The keys of `Session.handlerMap` (commands allowed before login). -/
def preAuthCmds : List String :=
  ["AUTH", "USER", "PASS", "SYST", "FEAT", "OPTS", "HELP", "NOOP", "QUIT"]

/-- The keys of `Session.handlerSecureMap` (commands requiring login). -/
def postAuthCmds : List String :=
  ["PWD", "CWD", "CDUP", "REST", "TYPE", "MODE", "PBSZ", "PROT", "STRU",
   "PASV", "EPSV", "PORT", "EPRT", "ABOR", "MLSD", "MLST", "STAT", "SIZE",
   "STOR", "APPE", "MDTM", "RETR", "DELE", "RNFR", "RNTO"]

/-- `Session.UnAuthenticatedCommand`'s reply text. -/
def unAuthReply (cmd arg : String) : String :=
  "530 Not logged in,to call " ++ cmd ++ " " ++ arg ++
    " please login with USER and PASS\r\n"

/-- What one iteration of `ftpHandler`'s loop decides to do with a parsed
command. `deny reply terminates` is the branch for a secure-table command on
an unauthenticated session: the source writes the `530` reply and then
executes `return`, ending the handler (hence `terminates = true`). -/
inductive Dispatch
| runPre
| runPost
| deny (reply : String) (terminates : Bool)
| unknownCmd (reply : String)
deriving DecidableEq

/-- The dispatch step of `Server.ftpHandler`: pre-auth table first, then the
secure table guarded by `isAuthenticated`, then the `500 Unknown command`
reply. -/
def ftpDispatch (isAuth : Bool) (cmd arg : String) : Dispatch :=
  if cmd ∈ preAuthCmds then .runPre
  else if cmd ∈ postAuthCmds then
    if isAuth = false then .deny (unAuthReply cmd arg) true
    else .runPost
  else .unknownCmd ("500 Unknown command. " ++ cmd ++ " " ++ arg ++ "\r\n")

/-- Whether the control loop stops right after this dispatch outcome, before
reading another command. -/
def loopTerminatesNow : Dispatch → Bool
  | .deny _ t => t
  | _ => false

/-- One modelled post-auth command step, used to reason about what a command
does to the per-session state: dispatch over the handlers modelled above.
`incoming` is the client payload of an upload, `free` the host's port
availability. -/
def sessCommandStep (serv : ServerSt) (sess : SessionSt) (cmd arg : String)
    (incoming : List Nat) (free : Nat → Bool) : ServerSt × SessionSt :=
  if cmd = "TYPE" then
    let r := typeCommand serv sess arg
    (r.1, r.2.1)
  else if cmd = "NOOP" then
    let r := noopCommand serv sess
    (r.1, r.2.1)
  else if cmd = "PWD" then
    let r := pwdCommand serv sess
    (r.1, r.2.1)
  else if cmd = "PASV" then
    let r := passiveModeCommand serv sess free
    (serv, r.sess)
  else if cmd = "STOR" ∨ cmd = "APPE" then
    let r := saveCommand serv sess cmd arg incoming
    (r.1, r.2.1)
  else if cmd = "RETR" then
    let r := retrieveCommand serv sess arg
    (r.1, r.2.1)
  else if cmd = "DELE" then
    let r := removeCommand serv sess arg
    (r.1, r.2.1)
  else if cmd = "RNFR" then
    let r := renameFromCommand serv sess arg
    (r.1, r.2.1)
  else if cmd = "RNTO" then
    let r := renameToCommand serv sess arg
    (r.1, r.2.1)
  else (serv, sess)

/-! ## Demonstration states used by concrete theorems -/

/-- A server with local root `/srv/root`, binary transfer type and a one-port
passive range, serving one file `a`. -/
def demoServ : ServerSt :=
  { ttype := "I", pasvMinPort := 5, pasvMaxPort := 5, localDir := "/srv/root",
    files := [("/srv/root/a", [1])] }

/-- An idle authenticated session at the root. -/
def demoSessIdle : SessionSt :=
  { workingDir := "/", root := "/", isAuthenticated := true, renamingFile := "",
    dataListener := none, dataCaller := none }

/-- A session holding an active-mode data connection (`dataCaller`). -/
def demoSessActive : SessionSt := { demoSessIdle with dataCaller := some 7 }

/-- A second session on the same server, with its own data connection. -/
def demoSessOther : SessionSt := { demoSessIdle with dataCaller := some 8 }

/-- A demonstration registry user: password `pw`, allowed from `1.2.3.4`. -/
def demoUser : UserRec :=
  { username := "alice", password := "pw",
    ips := [("1.2.3.4", mkBareNet ⟨true, 16909060⟩)] }

/-- A registry holding only `demoUser`. -/
def demoUsers : UsersMap := [("alice", demoUser)]

/-- The peer address `1.2.3.4`, parsed. -/
def demoIp : IpStr := ⟨"1.2.3.4", some ⟨true, 16909060⟩⟩

/-! ## Helper lemmas -/

theorem fmGet_fmSet_same (m : FileMap) (k : String) (v : List Nat) :
    fmGet (fmSet m k v) k = some v := by
  induction m with
  | nil => simp [fmSet, fmGet]
  | cons kv rest ih =>
    obtain ⟨k2, v2⟩ := kv
    by_cases h : k2 = k <;> simp [fmSet, fmGet, h, ih]

theorem findPortAux_first_free (free : Nat → Bool) :
    ∀ fuel startP p, findPortAux free startP fuel = some p →
      free p = true ∧ startP ≤ p ∧ p < startP + fuel ∧
        ∀ q, startP ≤ q → q < p → free q = false := by
  intro fuel
  induction fuel with
  | zero => intro s p h; simp [findPortAux] at h
  | succ n ih =>
    intro s p h
    unfold findPortAux at h
    by_cases hf : free s = true
    · rw [if_pos hf] at h
      cases h
      exact ⟨hf, Nat.le_refl _, by omega, fun q h1 h2 => absurd h1 (by omega)⟩
    · rw [if_neg hf] at h
      obtain ⟨hp, hle, hlt, hmin⟩ := ih (s + 1) p h
      refine ⟨hp, by omega, by omega, fun q hq1 hq2 => ?_⟩
      by_cases hqs : q = s
      · subst hqs; exact Bool.not_eq_true _ ▸ hf
      · exact hmin q (by omega) hq2

theorem findPortAux_exhausted (free : Nat → Bool) :
    ∀ fuel startP, (∀ q, startP ≤ q → q < startP + fuel → free q = false) →
      findPortAux free startP fuel = none := by
  intro fuel
  induction fuel with
  | zero => intro s _; rfl
  | succ n ih =>
    intro s hall
    unfold findPortAux
    rw [if_neg]
    · exact ih (s + 1) fun q h1 h2 => hall q (by omega) (by omega)
    · rw [hall s (Nat.le_refl _) (by omega)]; simp

theorem typeCommand_sess_unchanged (serv : ServerSt) (sess : SessionSt)
    (arg : String) : (typeCommand serv sess arg).2.1 = sess := by
  unfold typeCommand; split_ifs <;> rfl

theorem passiveModeCommand_renaming (serv : ServerSt) (sess : SessionSt)
    (free : Nat → Bool) :
    (passiveModeCommand serv sess free).sess.renamingFile = sess.renamingFile := by
  unfold passiveModeCommand
  rcases h : findAvailablePortInRange serv.pasvMinPort serv.pasvMaxPort free <;> simp

theorem saveCommand_sess (serv : ServerSt) (sess : SessionSt)
    (cmd arg : String) (incoming : List Nat) :
    (saveCommand serv sess cmd arg incoming).2.1 = closeDataConnection sess := by
  unfold saveCommand
  rcases hL : sess.dataListener with _ | p <;> rcases hC : sess.dataCaller with _ | c <;>
    simp only [] <;>
    (rcases hw : (writeFile serv.localDir serv.files
        (absPath sess.root sess.workingDir arg) incoming serv.ttype (cmd = "APPE")).res <;>
      simp [hw])

theorem retrieveCommand_sess (serv : ServerSt) (sess : SessionSt) (arg : String) :
    (retrieveCommand serv sess arg).2.1 = closeDataConnection sess := by
  unfold retrieveCommand
  rcases hL : sess.dataListener with _ | p <;> rcases hC : sess.dataCaller with _ | c <;>
    simp only [] <;>
    (rcases hr : readFile serv.localDir serv.files
        (absPath sess.root sess.workingDir arg) <;> simp [hr])

theorem removeCommand_sess (serv : ServerSt) (sess : SessionSt) (arg : String) :
    (removeCommand serv sess arg).2.1 = sess := by
  unfold removeCommand
  rcases hc : cleanPath (absPath sess.root sess.workingDir arg) with e | cp
  · simp [hc]
  · simp only [hc]
    rcases hg : fmGet serv.files (goJoin serv.localDir cp) <;> simp [hg]

theorem renameToCommand_sess (serv : ServerSt) (sess : SessionSt) (arg : String) :
    (renameToCommand serv sess arg).2.1 = sess := by
  unfold renameToCommand
  split_ifs
  · rfl
  · rcases hr : (renameP serv.localDir serv.files sess.renamingFile
        (absPath sess.root sess.workingDir arg)).res <;> simp [hr]

/-! ## Claim theorems -/

/-- C1: the path guard does **not** contain every input under the root: the
input `".."` passes `securePath` and `cleanPath` verbatim, and once joined to
the local root directory (as every mutating `LocalFS` operation does) it
denotes the root's parent — a host location outside the configured root —
instead of being rejected with the access-denied error. -/
theorem c1_path_guard_escape :
    securePath ".." = .ok ".." ∧
    cleanPath ".." = .ok ".." ∧
    goJoin "/srv/root" ".." = "/srv" ∧
    isWithinRoot "/srv/root" (goJoin "/srv/root" "..") = false ∧
    cleanPath "../.." = .ok "../.." ∧
    isWithinRoot "/srv/root" (goJoin "/srv/root" "../..") = false := by
  refine ⟨by decide, by decide, by decide, by decide, by decide, by decide⟩

/-- C2 (counterexample): on an unauthenticated session, the post-auth command
`PWD` produces the `530 Not logged in` reply and the handler *returns*,
terminating the control loop — the session does not continue reading further
commands as the claim states. -/
theorem c2_unauth_counterexample :
    ftpDispatch false "PWD" "" = .deny (unAuthReply "PWD" "") true ∧
    loopTerminatesNow (ftpDispatch false "PWD" "") = true := by
  exact ⟨by decide, by decide⟩

/-- C2 (amended): for every command of the post-auth dispatch table received
while the session is not authenticated, the server replies
`530 Not logged in, ...` and then **terminates** the control loop (closing the
session); in particular no post-auth handler runs before authentication. -/
theorem c2_unauth_gate (cmd arg : String) (h : cmd ∈ postAuthCmds) :
    ftpDispatch false cmd arg = .deny (unAuthReply cmd arg) true ∧
    ftpDispatch false cmd arg ≠ .runPost := by
  have heq : ftpDispatch false cmd arg = .deny (unAuthReply cmd arg) true := by
    fin_cases h <;> rfl
  exact ⟨heq, heq ▸ fun hc => Dispatch.noConfusion hc⟩

/-- C2 witness: the amended gate at the concrete command `PWD`. -/
theorem c2_unauth_gate_witness :
    ftpDispatch false "PWD" "x" = .deny (unAuthReply "PWD" "x") true :=
  (c2_unauth_gate "PWD" "x" (by decide)).1

/-- C4 (counterexample): the guard accepts `"a/./b"` (cleaning it to
`"a/b"`), so `WriteFile` succeeds — but `ReadFile` hands the *raw* name to
`os.DirFS`, which rejects the non-clean `io/fs` path, so the round trip
delivers an error rather than the written bytes. -/
theorem c4_roundtrip_counterexample :
    cleanPath "a/./b" = .ok "a/b" ∧
    (writeFile "/srv/root" [] "a/./b" [1, 2] "I" false).res = .ok () ∧
    readFile "/srv/root" (writeFile "/srv/root" [] "a/./b" [1, 2] "I" false).fs
      "a/./b" = .error "error opening file: invalid path" := by
  exact ⟨by decide, by decide, by decide⟩

/-- C4 (amended): for any byte sequence and any path `p` accepted by the path
guard whose form after stripping one leading '/' coincides with the guard's
cleaned output and is a valid `io/fs` name, `WriteFile(p, B, "I", false)`
followed by `ReadFile(p)` delivers exactly `B`, byte for byte. -/
theorem c4_binary_roundtrip (localDir : String) (fs : FileMap) (p c : String)
    (bytes : List Nat) (hc : cleanPath p = .ok c) (hs : stripLeadSlash p = c)
    (hv : fsValidPath c = true) :
    (writeFile localDir fs p bytes "I" false).res = .ok () ∧
    readFile localDir (writeFile localDir fs p bytes "I" false).fs p =
      .ok bytes := by
  constructor
  · simp [writeFile, hc]
  · simp [readFile, hs, hv, writeFile, hc, fmGet_fmSet_same]

/-- C4 witness: the binary round trip at the concrete path `a/b`. -/
theorem c4_binary_roundtrip_witness :
    (writeFile "/srv/root" [] "a/b" [7, 8] "I" false).res = .ok () ∧
    readFile "/srv/root" (writeFile "/srv/root" [] "a/b" [7, 8] "I" false).fs
      "a/b" = .ok [7, 8] :=
  c4_binary_roundtrip "/srv/root" [] "a/b" "a/b" [7, 8]
    (by decide) (by decide) (by decide)

/-- C9: the SFTP `Rename` handler rejects the request with the already-exists
error and leaves the filesystem unchanged whenever `Stat` of the target
succeeds, and performs the underlying rename exactly when `Stat` of the
target fails. -/
theorem c9_sftp_rename_semantics (localDir : String) (fs : FileMap)
    (src tgt : String) :
    (∀ v, statP localDir fs tgt = .ok v →
      posixRename localDir fs src tgt =
        { res := .error "file already exists", fs := fs }) ∧
    (∀ e, statP localDir fs tgt = .error e →
      posixRename localDir fs src tgt = renameP localDir fs src tgt) := by
  constructor
  · intro v hv; simp [posixRename, hv]
  · intro e he; simp [posixRename, he]

/-- C9 witness: renaming onto the existing `b` is rejected with the
filesystem intact, and renaming onto the fresh `c` moves the file. -/
theorem c9_sftp_rename_witness :
    posixRename "/srv/root" [("/srv/root/a", [1]), ("/srv/root/b", [2])] "a" "b" =
      { res := .error "file already exists",
        fs := [("/srv/root/a", [1]), ("/srv/root/b", [2])] } ∧
    posixRename "/srv/root" [("/srv/root/a", [1])] "a" "c" =
      renameP "/srv/root" [("/srv/root/a", [1])] "a" "c" := by
  constructor
  · exact (c9_sftp_rename_semantics "/srv/root"
      [("/srv/root/a", [1]), ("/srv/root/b", [2])] "a" "b").1 [2] (by decide)
  · exact (c9_sftp_rename_semantics "/srv/root" [("/srv/root/a", [1])] "a" "c").2
      "error getting file info: file does not exist" (by decide)

/-- C10: for any transfer type other than `"A"` and `"I"`, `WriteFile` with
`appendOnly = false` returns the unsupported-transfer-type error, yet the
target file was already opened with create-and-truncate before the type
check: afterwards the file exists at the guarded path with empty content —
an existing file is emptied and a missing one created despite the error. -/
theorem c10_writefile_truncates_on_bad_type (localDir : String) (fs : FileMap)
    (p c : String) (bytes : List Nat) (tt : String)
    (hA : tt ≠ "A") (hI : tt ≠ "I") (hc : cleanPath p = .ok c) :
    (writeFile localDir fs p bytes tt false).res =
      .error ("unsupported transfer type: " ++ tt ++
        ", only type 'A' (text) or type 'I' (binary)") ∧
    fmGet (writeFile localDir fs p bytes tt false).fs (goJoin localDir c) =
      some [] := by
  constructor
  · simp [writeFile, hc, hI, hA]
  · simp [writeFile, hc, hI, hA, fmGet_fmSet_same]

/-- C10 witness: `TYPE`-less transfer type `"B"` truncates the existing file
`f` even though `WriteFile` reports the unsupported-type error. -/
theorem c10_writefile_witness :
    (writeFile "/srv/root" [("/srv/root/f", [1, 2])] "f" [9] "B" false).res =
      .error ("unsupported transfer type: " ++ "B" ++
        ", only type 'A' (text) or type 'I' (binary)") ∧
    fmGet (writeFile "/srv/root" [("/srv/root/f", [1, 2])] "f" [9] "B" false).fs
      (goJoin "/srv/root" "f") = some [] :=
  c10_writefile_truncates_on_bad_type "/srv/root" [("/srv/root/f", [1, 2])]
    "f" "f" [9] "B" (by decide) (by decide) (by decide)

theorem usersGet_error_msg (m : UsersMap) (name e : String)
    (h : usersGet m name = .error e) : e = "user not found" := by
  induction m with
  | nil => simp [usersGet] at h; exact h.symm
  | cons kv rest ih =>
    obtain ⟨k, u⟩ := kv
    by_cases hk : k = name
    · simp [usersGet, hk] at h
    · simp only [usersGet, hk, if_neg, if_false] at h
      exact ih h

theorem usersFind_ok_iff (m : UsersMap) (uname pwd : String) (ip : IpStr) :
    (∃ usr, usersFind m uname pwd ip = .ok usr) ↔
      ∃ usr, usersGet m uname = .ok usr ∧ usr.password = pwd ∧
        findIP usr ip = true := by
  constructor
  · rintro ⟨usr, h⟩
    unfold usersFind at h
    rcases hg : usersGet m uname with e | u <;> rw [hg] at h <;> dsimp only at h
    · cases h
    · by_cases hp : u.password = pwd
      · rw [if_neg (fun hcon => hcon hp)] at h
        by_cases hf : findIP u ip = false
        · rw [if_pos hf] at h; cases h
        · rw [if_neg hf] at h
          cases h
          exact ⟨usr, rfl, hp, by simpa using hf⟩
      · rw [if_pos hp] at h; cases h
  · rintro ⟨usr, hg, hp, hf⟩
    refine ⟨usr, ?_⟩
    unfold usersFind
    rw [hg]
    dsimp only
    rw [if_neg (fun hcon => hcon hp), if_neg (by simp [hf])]

theorem netContains_bare_iff (a b : IpAddr) :
    netContains (mkBareNet a) b = true ↔ b = a := by
  unfold netContains mkBareNet
  by_cases hv : b.v4 = a.v4
  · have hw : ipBitsWidth b = ipBitsWidth a := by unfold ipBitsWidth; rw [hv]
    rw [if_neg (by simp [hv])]
    simp only [hw, Nat.sub_self, pow_zero, Nat.div_one, decide_eq_true_eq]
    constructor
    · intro h; cases a; cases b; simp_all
    · intro h; rw [h]
  · rw [if_pos (by simp [hv])]
    simp only [Bool.false_eq_true, false_iff]
    intro h; rw [h] at hv; exact hv rfl

/-- C3: the user-registry authentication decomposes exactly as claimed:
`Find(u, p, ip)` succeeds iff `Get(u)` succeeds, the stored password equals
`p` and the peer address lies in one of the user's networks; the three
failure cases carry the source's three pairwise-distinct reasons; and a bare
address added without mask is stored full-length, hence matches exactly
itself (/32 for IPv4, /128 for IPv6). -/
theorem c3_user_registry_auth (m : UsersMap) (uname pwd : String) (ip : IpStr)
    (u0 : UserRec) (key : String) (a b : IpAddr) :
    ((∃ usr, usersFind m uname pwd ip = .ok usr) ↔
      (∃ usr, usersGet m uname = .ok usr ∧ usr.password = pwd ∧
        findIP usr ip = true))
  ∧ (∀ e, usersGet m uname = .error e →
      e = "user not found" ∧ usersFind m uname pwd ip = .error e)
  ∧ (∀ usr, usersGet m uname = .ok usr → usr.password ≠ pwd →
      usersFind m uname pwd ip = .error "password is incorrect")
  ∧ (∀ usr, usersGet m uname = .ok usr → usr.password = pwd →
      findIP usr ip = false →
      usersFind m uname pwd ip =
        .error ("ip origin " ++ ip.raw ++ " is not allowed"))
  ∧ (("user not found" : String) ≠ "password is incorrect" ∧
      ("user not found" : String) ≠ "ip origin " ++ ip.raw ++ " is not allowed" ∧
      ("password is incorrect" : String) ≠
        "ip origin " ++ ip.raw ++ " is not allowed")
  ∧ addIP u0 key (.bare a) =
      .ok { u0 with ips := ipsSet u0.ips key (mkBareNet a) }
  ∧ (netContains (mkBareNet a) b = true ↔ b = a) := by
  refine ⟨usersFind_ok_iff m uname pwd ip, ?_, ?_, ?_, ⟨by decide, ?_, ?_⟩, rfl,
    netContains_bare_iff a b⟩
  · intro e he
    refine ⟨usersGet_error_msg m uname e he, ?_⟩
    unfold usersFind
    rw [he]
  · intro usr hg hp
    unfold usersFind
    rw [hg]
    dsimp only
    rw [if_pos hp]
  · intro usr hg hp hf
    unfold usersFind
    rw [hg]
    dsimp only
    rw [if_neg (fun hcon => hcon hp), if_pos hf]
  · intro h
    have hl := congrArg String.length h
    rw [String.length_append, String.length_append] at hl
    have e1 : ("user not found" : String).length = 14 := by decide
    have e2 : ("ip origin " : String).length = 10 := by decide
    have e3 : (" is not allowed" : String).length = 15 := by decide
    omega
  · intro h
    have hl := congrArg String.length h
    rw [String.length_append, String.length_append] at hl
    have e1 : ("password is incorrect" : String).length = 21 := by decide
    have e2 : ("ip origin " : String).length = 10 := by decide
    have e3 : (" is not allowed" : String).length = 15 := by decide
    omega

/-- C3 witness: on the demonstration registry, a wrong password fails with
the password reason and the right credentials from the allowed address
succeed. -/
theorem c3_user_registry_auth_witness :
    usersFind demoUsers "alice" "bad" demoIp = .error "password is incorrect" ∧
    (∃ usr, usersFind demoUsers "alice" "pw" demoIp = .ok usr) := by
  constructor
  · exact (c3_user_registry_auth demoUsers "alice" "bad" demoIp demoUser "k"
      ⟨true, 0⟩ ⟨true, 0⟩).2.2.1 demoUser (by decide) (by decide)
  · exact (c3_user_registry_auth demoUsers "alice" "pw" demoIp demoUser "k"
      ⟨true, 0⟩ ⟨true, 0⟩).1.mpr ⟨demoUser, by decide, by decide, by decide⟩

/-- C5 (code bug): the transfer type is process-wide, not per-session.
With the shared server initially in binary mode, session A's upload stores
the client bytes verbatim; after session B alone executes `TYPE A`, the very
same upload by session A is ASCII-converted — session B's `TYPE` changed
state observable by session A (the server's `Type` field), even though B's
own session state is untouched. -/
theorem c5_transfer_type_not_per_session :
    fmGet (saveCommand demoServ demoSessActive "STOR" "f" [120, 13, 10]).1.files
      "/srv/root/f" = some [120, 13, 10] ∧
    (typeCommand demoServ demoSessOther "A").1.ttype = "A" ∧
    (typeCommand demoServ demoSessOther "A").2.1 = demoSessOther ∧
    fmGet (saveCommand (typeCommand demoServ demoSessOther "A").1 demoSessActive
      "STOR" "f" [120, 13, 10]).1.files "/srv/root/f" = some [120, 10] := by
  exact ⟨by decide, by decide, by decide, by decide⟩

/-- C6 (code bug): after an active-mode `STOR` and `RETR` complete
successfully (`226` replies), the deferred cleanup clears only the passive
listener; the session still references the active-mode peer connection in
`dataCaller`, so the data channel is not back in the Idle state. -/
theorem c6_data_channel_not_idle :
    (saveCommand demoServ demoSessActive "STOR" "f" [104]).2.2 =
      ["150 Opening data connection.\r\n", "226 Transfer complete\r\n"] ∧
    (saveCommand demoServ demoSessActive "STOR" "f" [104]).2.1.dataListener =
      none ∧
    (saveCommand demoServ demoSessActive "STOR" "f" [104]).2.1.dataCaller =
      some 7 ∧
    (retrieveCommand demoServ demoSessActive "a").2.2 =
      ["150 Opening data connection.\n", "226 Transfer complete\r\n"] ∧
    (retrieveCommand demoServ demoSessActive "a").2.1.dataCaller = some 7 := by
  exact ⟨by decide, by decide, by decide, by decide, by decide⟩

/-- C7 (counterexample): after a successful `RNFR a` (reply `350`), an
intervening `NOOP` does **not** clear the stored `renamingFile` — it still
holds `/a` — and a subsequent `RNTO b` still performs the rename (reply
`250`), contradicting the claim that any command other than `RNTO` clears the
pending source. -/
theorem c7_renamefrom_counterexample :
    (renameFromCommand demoServ demoSessIdle "a").2.2 =
      "350 File exists, ready for destination name\r\n" ∧
    ((noopCommand demoServ
      (renameFromCommand demoServ demoSessIdle "a").2.1).2.1).renamingFile =
      "/a" ∧
    ¬(((noopCommand demoServ
      (renameFromCommand demoServ demoSessIdle "a").2.1).2.1).renamingFile = "") ∧
    (renameToCommand demoServ
      (noopCommand demoServ
        (renameFromCommand demoServ demoSessIdle "a").2.1).2.1 "b").2.2 =
      "250 File renamed successfully.\r\n" := by
  exact ⟨by decide, by decide, by decide, by decide⟩

/-- C7 (amended): `renamingFile` persists instead of being cleared: every
modelled command other than `RNFR` leaves it unchanged (including `RNTO`),
and `RNTO` does not require it to be set — with a nonempty argument it always
invokes the filesystem rename from whatever `renamingFile` currently holds,
replying `250` exactly when that rename succeeds and `550` with the error
otherwise. -/
theorem c7_renamefrom_persists (serv : ServerSt) (sess : SessionSt)
    (cmd arg : String) (incoming : List Nat) (free : Nat → Bool) :
    (cmd ≠ "RNFR" →
      (sessCommandStep serv sess cmd arg incoming free).2.renamingFile =
        sess.renamingFile)
  ∧ (arg ≠ "" →
      (renameToCommand serv sess arg).1.files =
        (renameP serv.localDir serv.files sess.renamingFile
          (absPath sess.root sess.workingDir arg)).fs)
  ∧ (arg ≠ "" →
      (renameP serv.localDir serv.files sess.renamingFile
        (absPath sess.root sess.workingDir arg)).res = .ok () →
      (renameToCommand serv sess arg).2.2 = "250 File renamed successfully.\r\n")
  ∧ (arg ≠ "" → ∀ e,
      (renameP serv.localDir serv.files sess.renamingFile
        (absPath sess.root sess.workingDir arg)).res = .error e →
      (renameToCommand serv sess arg).2.2 =
        "550 Error renaming file: " ++ e ++ "\r\n") := by
  refine ⟨?_, ?_, ?_, ?_⟩
  · intro hcmd
    unfold sessCommandStep
    split_ifs with h1 h2 h3 h4 h5 h6 h7 h8 <;>
      first
        | rfl
        | exact absurd (by assumption) hcmd
        | (dsimp only; rw [typeCommand_sess_unchanged])
        | (dsimp only; exact passiveModeCommand_renaming serv sess free)
        | (dsimp only; rw [saveCommand_sess]; rfl)
        | (dsimp only; rw [retrieveCommand_sess]; rfl)
        | (dsimp only; rw [removeCommand_sess])
        | (dsimp only; rw [renameToCommand_sess])
  · intro harg
    unfold renameToCommand
    rw [if_neg harg]
    rcases hr : (renameP serv.localDir serv.files sess.renamingFile
        (absPath sess.root sess.workingDir arg)).res <;> simp [hr]
  · intro harg hok
    unfold renameToCommand
    rw [if_neg harg]
    simp [hok]
  · intro harg e he
    unfold renameToCommand
    rw [if_neg harg]
    simp [he]

/-- C7 witness: persistence under a concrete `NOOP`, and a concrete
unconditional `RNTO`. -/
theorem c7_renamefrom_persists_witness :
    (sessCommandStep demoServ demoSessActive "NOOP" "" [] (fun _ => false)).2.renamingFile =
      demoSessActive.renamingFile ∧
    (renameToCommand demoServ { demoSessIdle with renamingFile := "/a" } "b").2.2 =
      "250 File renamed successfully.\r\n" := by
  constructor
  · exact (c7_renamefrom_persists demoServ demoSessActive "NOOP" "" []
      (fun _ => false)).1 (by decide)
  · exact (c7_renamefrom_persists demoServ { demoSessIdle with renamingFile := "/a" }
      "x" "b" [] (fun _ => false)).2.2.1 (by decide) (by decide)

/-- C8: passive-mode port selection scans candidate ports ascending from
`PasvMin` and binds the first free one; when no port in the configured range
is free (a single occupied port included), `PASV` replies with the `500`
server error and the handler returns a nil error, so the control session
stays alive for the next command, its state unchanged. -/
theorem c8_pasv_port_selection (serv : ServerSt) (sess : SessionSt)
    (free : Nat → Bool) :
    (∀ p, findAvailablePortInRange serv.pasvMinPort serv.pasvMaxPort free = .ok p →
      free p = true ∧ serv.pasvMinPort ≤ p ∧ p ≤ serv.pasvMaxPort ∧
        ∀ q, serv.pasvMinPort ≤ q → q < p → free q = false)
  ∧ ((∀ q, serv.pasvMinPort ≤ q → q ≤ serv.pasvMaxPort → free q = false) →
      findAvailablePortInRange serv.pasvMinPort serv.pasvMaxPort free =
        .error ("no available ports found in range " ++
          toString serv.pasvMinPort ++ "-" ++ toString serv.pasvMaxPort) ∧
      passiveModeCommand serv sess free =
        { sess := sess,
          replies := ["500: Server error listening for data connection: " ++
            ("no available ports found in range " ++ toString serv.pasvMinPort ++
              "-" ++ toString serv.pasvMaxPort) ++ "\r\n"],
          handlerErr := false }) := by
  constructor
  · intro p hp
    unfold findAvailablePortInRange at hp
    rcases hfa : findPortAux free serv.pasvMinPort
        (serv.pasvMaxPort + 1 - serv.pasvMinPort) with _ | q <;> rw [hfa] at hp
    · cases hp
    · cases hp
      obtain ⟨h1, h2, h3, h4⟩ := findPortAux_first_free free _ _ _ hfa
      exact ⟨h1, h2, by omega, h4⟩
  · intro hall
    have hnone : findPortAux free serv.pasvMinPort
        (serv.pasvMaxPort + 1 - serv.pasvMinPort) = none :=
      findPortAux_exhausted free _ _ fun q hq1 hq2 => hall q hq1 (by omega)
    constructor
    · unfold findAvailablePortInRange
      rw [hnone]
    · unfold passiveModeCommand findAvailablePortInRange
      rw [hnone]

/-- C8 witness: in the range 5–7 with only port 6 free the scan returns 6
(and 5 is indeed not free); with the single-port range 5–5 occupied, the
`500` reply is produced and the handler reports no error, keeping the
control session alive. -/
theorem c8_pasv_port_selection_witness :
    ((fun q => q == 6) 6 = true ∧ 5 ≤ 6 ∧ 6 ≤ 7 ∧
      (∀ q, 5 ≤ q → q < 6 → (fun q => q == 6) q = false)) ∧
    passiveModeCommand demoServ demoSessIdle (fun _ => false) =
      { sess := demoSessIdle,
        replies := ["500: Server error listening for data connection: " ++
          ("no available ports found in range " ++ toString 5 ++ "-" ++
            toString 5) ++ "\r\n"],
        handlerErr := false } := by
  constructor
  · exact (c8_pasv_port_selection
      { demoServ with pasvMaxPort := 7 } demoSessIdle (fun q => q == 6)).1 6
      (by decide)
  · exact ((c8_pasv_port_selection demoServ demoSessIdle (fun _ => false)).2
      (fun q h1 h2 => rfl)).2
